import Mathlib

/-!
Verification of the interactive bounding-box annotation editor
(`app/canvas.py`, `app/objects.py`) against its design specification.

The editing core is shallowly embedded: Python objects become Lean
structures, the object heap (Python references alias: the store list,
the selection list and the hovered pointer can share objects) is a list
of `Annot` values indexed by natural-number ids, Python `float`
arithmetic is modelled exactly by `ℚ`, and code that can raise returns
`Except String`.
-/

/-- A Python runtime value, used where the source is dynamically typed:
the `label_name` and `keypoints` constructor arguments of `Annotation`
in `app/objects.py` receive values of different runtime types at
different call sites (`app/canvas.py` passes the numeric category id in
the label slot and the label string in the keypoints slot). -/
inductive PyVal where
  | none : PyVal
  | str : String → PyVal
  | int : Int → PyVal
deriving DecidableEq, Inhabited

/-- Python truthiness for `PyVal`: `None` and empty strings and `0` are falsy. -/
def PyVal.truthy : PyVal → Bool
  | PyVal.none => false
  | PyVal.str s => s ≠ ""
  | PyVal.int n => n ≠ 0

namespace HoverType

/-- Modelled from the spec: `app/enums/annotation.py` is not part of the
source tree; the spec (sections 4.2 and 9) describes `HoverType` as an
integer bitset over TOP/LEFT/RIGHT/BOTTOM plus the sentinels NONE
(falsy, hence 0) and FULL, and the flip arithmetic in
`Canvas.move_annotation` (adding or subtracting `LEFT` or `TOP` to flip
a handle to its opposite) forces `BOTTOM = 2·TOP` and `RIGHT = 2·LEFT`,
with FULL a separate bit disjoint from the four edge bits. -/
def NONE : Int := 0

/-- Modelled from the spec: see `HoverType.NONE`. -/
def TOP : Int := 1

/-- Modelled from the spec: see `HoverType.NONE`. -/
def BOTTOM : Int := 2

/-- Modelled from the spec: see `HoverType.NONE`. -/
def LEFT : Int := 4

/-- Modelled from the spec: see `HoverType.NONE`. -/
def RIGHT : Int := 8

/-- Modelled from the spec: see `HoverType.NONE`. -/
def TOP_LEFT : Int := 5

/-- Modelled from the spec: see `HoverType.NONE`. -/
def TOP_RIGHT : Int := 9

/-- Modelled from the spec: see `HoverType.NONE`. -/
def BOTTOM_LEFT : Int := 6

/-- Modelled from the spec: see `HoverType.NONE`. -/
def BOTTOM_RIGHT : Int := 10

/-- Modelled from the spec: see `HoverType.NONE`. -/
def FULL : Int := 16

end HoverType

/-- Modelled from the spec: `AnnotatingState` lives in the absent
`app/enums/annotation.py`; the members IDLE, READY, DRAWING are the ones
`app/canvas.py` uses (the spec calls them Idle, Armed, Drawing). -/
inductive AnnotatingState where
  | IDLE : AnnotatingState
  | READY : AnnotatingState
  | DRAWING : AnnotatingState
deriving DecidableEq

/-- Modelled from the spec: `clip_value` lives in the absent
`app/utils.py`; spec section 4.1: `clip(value, lo, hi)` clamps a scalar
to `[lo, hi]`. -/
def clip_value (value lo hi : Int) : Int :=
  max lo (min value hi)

/-- Python `round` on an exact value: round half to even. -/
def pyRound (q : ℚ) : Int :=
  let f := ⌊q⌋
  let r := q - f
  if r < 1/2 then f
  else if 1/2 < r then f + 1
  else if f % 2 = 0 then f else f + 1

/-- The `Annotation` class of `app/objects.py` (called `Annot` here),
flattened with its `Bbox` base: `position = (x_min, y_min, x_max,
y_max)` plus the transient UI state set by `__init__`.  The
`label_name` and `keypoints` slots hold `PyVal` because the call sites
are dynamically typed (see `PyVal`).  The per-keypoint sub-objects are
never populated by any code under `src/` (the only call site passing a
truthy `keypoints` value passes a string, which makes `__init__`
raise), so they are not modelled beyond the slot itself. -/
structure Annot where
  position : Int × Int × Int × Int
  label_name : PyVal
  keypoints : PyVal
  hovered : Int
  selected : Bool
  hidden : Bool
  highlighted : Bool
deriving DecidableEq, Inhabited

/-- `Bbox.left`. -/
def Annot.left (a : Annot) : Int := a.position.1

/-- `Bbox.top`. -/
def Annot.top (a : Annot) : Int := a.position.2.1

/-- `Bbox.right`. -/
def Annot.right (a : Annot) : Int := a.position.2.2.1

/-- `Bbox.bottom`. -/
def Annot.bottom (a : Annot) : Int := a.position.2.2.2

/-- `Annotation.__eq__` from `app/objects.py`: equality is
`(position, label_name)`, not identity. -/
def Annot.py_eq (a other : Annot) : Bool :=
  a.position == other.position && a.label_name == other.label_name

/-- `Annotation.__init__` from `app/objects.py`.  The UI flags are
initialised exactly as in the source.  When `keypoints` is truthy the
source iterates it and assigns `keypoint.parent = self` on each
element; the only truthy value ever passed under `src/` is a string
(the label, from `Canvas.create_annotation`), whose characters are
`str` objects without a writable `parent` slot, so the constructor
raises `AttributeError` (an `int` would raise `TypeError`: not
iterable). -/
def Annot.init (position : Int × Int × Int × Int) (label_name : PyVal)
    (keypoints : PyVal := PyVal.none) : Except String Annot :=
  if keypoints.truthy then
    match keypoints with
    | PyVal.str _ => Except.error "AttributeError"
    | _ => Except.error "TypeError"
  else
    Except.ok
      { position := position
        label_name := label_name
        keypoints := keypoints
        hovered := HoverType.NONE
        selected := false
        hidden := false
        highlighted := false }

/-- The bitwise accumulation in `Annotation.get_hovered`:
`hover_type = NONE; hover_type |= top and TOP; |= left and LEFT;
|= right and RIGHT; |= bottom and BOTTOM` (Python `False` is `0`). -/
def hover_bits (top left right bottom : Bool) : Int :=
  Int.lor
    (Int.lor
      (Int.lor
        (Int.lor HoverType.NONE (if top then HoverType.TOP else 0))
        (if left then HoverType.LEFT else 0))
      (if right then HoverType.RIGHT else 0))
    (if bottom then HoverType.BOTTOM else 0)

/-- `Annotation.get_hovered` from `app/objects.py`: NONE outside the
rectangle expanded by `edge_width`; otherwise each edge is tested by
absolute distance to its fixed coordinate, the matches are OR-ed, and a
zero result (falsy) falls back to FULL. -/
def Annot.get_hovered (a : Annot) (mouse_position : Int × Int)
    (edge_width : Int) : Int :=
  let x_pos := mouse_position.1
  let y_pos := mouse_position.2
  if ¬(a.left - edge_width ≤ x_pos ∧ x_pos ≤ a.right + edge_width ∧
       a.top - edge_width ≤ y_pos ∧ y_pos ≤ a.bottom + edge_width) then
    HoverType.NONE
  else
    let top := decide (|y_pos - a.top| ≤ edge_width)
    let left := decide (|x_pos - a.left| ≤ edge_width)
    let right := decide (|x_pos - a.right| ≤ edge_width)
    let bottom := decide (|y_pos - a.bottom| ≤ edge_width)
    let hover_type := hover_bits top left right bottom
    if hover_type = 0 then HoverType.FULL else hover_type

/-- The mutable state of the `Canvas` widget (`app/canvas.py`) that the
editing core touches.  Python object references alias (the store list
`annotations`, the selection list `selected_annos` and the hover pointer
`hovered_anno` can all point at the same `Annotation` object), so
annotation objects live in the heap `objs` and the lists hold
natural-number ids (indices into `objs`); the clipboard holds deep
copies and is never aliased, so it stores plain values.  `pixmap` is
`none` for a null `QPixmap` (whose reported width and height are 0);
`cursor` is `mouse_handler.cursor_position` in image space. -/
structure CanvasState where
  objs : List Annot
  labels : List String
  clipboard : List Annot
  quick_create : Bool
  previous_label : Option String
  unsaved_changes : Bool
  pixmap : Option (Int × Int)
  canvas_w : Int
  canvas_h : Int
  zoom_level : ℚ
  pan_x : ℚ
  pan_y : ℚ
  annotating_state : AnnotatingState
  anno_first_corner : Option (Int × Int)
  annotations : List Nat
  selected_annos : List Nat
  hovered_anno : Option Nat
  cursor : Int × Int

/-- Dereference an object id in the heap. -/
def getObj (s : CanvasState) (i : Nat) : Annot :=
  s.objs.getD i default

/-- Size reported by the pixmap: a null `QPixmap` reports `(0, 0)`. -/
def pixmap_size (pixmap : Option (Int × Int)) : Int × Int :=
  match pixmap with
  | Option.none => (0, 0)
  | Option.some wh => wh

/-- `Canvas.get_scale` from `app/canvas.py`: 1.0 for a null pixmap,
otherwise compare the canvas aspect ratio with the image aspect ratio to
choose between height-fit and width-fit, and multiply by the zoom
level.  Each Python division is modelled in order and raises
`ZeroDivisionError` on a zero divisor. -/
def get_scale (canvas_w canvas_h : Int) (pixmap : Option (Int × Int))
    (zoom_level : ℚ) : Except String ℚ :=
  match pixmap with
  | Option.none => Except.ok 1
  | Option.some (image_w, image_h) =>
    if canvas_h = 0 then Except.error "ZeroDivisionError"
    else if image_h = 0 then Except.error "ZeroDivisionError"
    else
      let canvas_aspect : ℚ := (canvas_w : ℚ) / (canvas_h : ℚ)
      let image_aspect : ℚ := (image_w : ℚ) / (image_h : ℚ)
      if canvas_aspect < image_aspect then
        if image_w = 0 then Except.error "ZeroDivisionError"
        else Except.ok ((canvas_w : ℚ) / (image_w : ℚ) * zoom_level)
      else Except.ok ((canvas_h : ℚ) / (image_h : ℚ) * zoom_level)

/-- The edge width used by `Canvas.set_hovered_annotation`:
`edge_width = round(8 / scale); edge_width = max(edge_width, 4)`.
A zero scale makes the division raise. -/
def edge_width_of (canvas_w canvas_h : Int) (pixmap : Option (Int × Int))
    (zoom_level : ℚ) : Except String Int :=
  match get_scale canvas_w canvas_h pixmap zoom_level with
  | Except.error e => Except.error e
  | Except.ok scale =>
    if scale = 0 then Except.error "ZeroDivisionError"
    else Except.ok (max (pyRound (8 / scale)) 4)

/-- The loop `for annotation in self.annotations: annotation.selected =
False` from `Canvas.paste_annotations` and
`Canvas.set_selected_annotation`: clear the selected flag of every
object the given id list points at. -/
def deselectList (objs : List Annot) (ids : List Nat) : List Annot :=
  ids.foldl (fun os i => os.set i { os.getD i default with selected := false }) objs

/-- The loop `for annotation in annotations: annotation.hovered =
HoverType.NONE` from `Canvas.set_hovered_annotation`. -/
def clearHoveredList (objs : List Annot) (ids : List Nat) : List Annot :=
  ids.foldl (fun os i => os.set i { os.getD i default with hovered := HoverType.NONE }) objs

/-- The search loop of `Canvas.set_hovered_annotation`: first id in the
list whose object reports a hover type other than NONE, together with
that hover type. -/
def findHover (s : CanvasState) (ids : List Nat) (pos : Int × Int)
    (edge_width : Int) : Option (Nat × Int) :=
  match ids with
  | [] => Option.none
  | i :: rest =>
    let hovered_type := (getObj s i).get_hovered pos edge_width
    if hovered_type ≠ HoverType.NONE then Option.some (i, hovered_type)
    else findHover s rest pos edge_width

/-- `Canvas.set_hovered_annotation` from `app/canvas.py`: clear
`hovered_anno` and every visible object's hover flag; outside IDLE stop
there; in IDLE compute the edge width from the scale (this is where a
zero scale raises) and scan the visible annotations from newest to
oldest, recording the first hit. -/
def set_hovered_anno (s : CanvasState) : Except String CanvasState :=
  let visible := s.annotations.filter (fun i => !(getObj s i).hidden)
  let s1 := { s with hovered_anno := Option.none,
                     objs := clearHoveredList s.objs visible }
  if s.annotating_state ≠ AnnotatingState.IDLE then Except.ok s1
  else
    match edge_width_of s.canvas_w s.canvas_h s.pixmap s.zoom_level with
    | Except.error e => Except.error e
    | Except.ok edge_width =>
      match findHover s1 visible.reverse s.cursor edge_width with
      | Option.none => Except.ok s1
      | Option.some (i, hovered_type) =>
        Except.ok { s1 with
          objs := s1.objs.set i { getObj s1 i with hovered := hovered_type },
          hovered_anno := Option.some i }

/-- `Canvas.update` from `app/canvas.py`: recompute the hovered
annotation and the cursor icon, then repaint.  The cursor icon and the
repaint do not touch the modelled state. -/
def canvas_update (s : CanvasState) : Except String CanvasState :=
  set_hovered_anno s

/-- `Canvas.add_selected_annotation` from `app/canvas.py`: a `None`
argument or one already contained in `selected_annos` (Python `in`,
which compares with `Annotation.__eq__`, i.e. by position and label) is
ignored; otherwise the id is appended and the object's selected flag
set. -/
def add_selected_anno (s : CanvasState) (aid : Option Nat) : CanvasState :=
  match aid with
  | Option.none => s
  | Option.some i =>
    if s.selected_annos.any (fun j => Annot.py_eq (getObj s j) (getObj s i)) then s
    else { s with
      selected_annos := s.selected_annos ++ [i],
      objs := s.objs.set i { getObj s i with selected := true } }

/-- `Canvas.set_selected_annotation` from `app/canvas.py`: clear the
selected flag of every store member, empty the selection list, then add
the given annotation. -/
def set_selected_anno (s : CanvasState) (aid : Option Nat) : CanvasState :=
  let s1 := { s with objs := deselectList s.objs s.annotations }
  let s2 := { s1 with selected_annos := [] }
  add_selected_anno s2 aid

/-- `Canvas.set_annotating_state` from `app/canvas.py`.  IDLE drops the
pending first corner; READY clears the selection and recomputes hover;
any other argument means DRAWING and captures the cursor as the first
corner.  Every branch ends in `self.update()`. -/
def set_annotating_state (s : CanvasState) (state : AnnotatingState) :
    Except String CanvasState :=
  match state with
  | AnnotatingState.IDLE =>
    canvas_update { s with annotating_state := AnnotatingState.IDLE,
                           anno_first_corner := Option.none }
  | AnnotatingState.READY =>
    match set_hovered_anno (set_selected_anno
        { s with annotating_state := AnnotatingState.READY } Option.none) with
    | Except.error e => Except.error e
    | Except.ok t => canvas_update t
  | AnnotatingState.DRAWING =>
    canvas_update { s with annotating_state := AnnotatingState.DRAWING,
                           anno_first_corner := Option.some s.cursor }

/-- `Canvas.create_annotation` from `app/canvas.py`: clamp the stored
first corner and the cursor to the image bounds, normalise the corner
order, resolve the label (the given argument if truthy, else the combo
box choice `combo_choice`, aborting with no state change when that is
falsy), remember it as `previous_label`, compute `category_id =
labels.index(label) + 1` (`ValueError` when absent), construct
`Annotation(position, category_id, label_name)` — note the constructor
signature in `app/objects.py` is `(position, label_name, keypoints)` —
append it to the store, select it exclusively and mark unsaved
changes. -/
def create_anno (s : CanvasState) (label_name : Option String)
    (combo_choice : Option String) : Except String CanvasState :=
  match s.anno_first_corner with
  | Option.none => Except.error "TypeError"
  | Option.some (fx, fy) =>
    let (cx, cy) := s.cursor
    let right_border := (pixmap_size s.pixmap).1
    let bottom_border := (pixmap_size s.pixmap).2
    let x_min := clip_value fx 0 right_border
    let x_max := clip_value cx 0 right_border
    let y_min := clip_value fy 0 bottom_border
    let y_max := clip_value cy 0 bottom_border
    let x_lo := min x_min x_max
    let x_hi := max x_min x_max
    let y_lo := min y_min y_max
    let y_hi := max y_min y_max
    let resolved : Option String :=
      match label_name with
      | Option.none => combo_choice
      | Option.some l => if l = "" then combo_choice else Option.some l
    match resolved with
    | Option.none => Except.ok s
    | Option.some l =>
      if l = "" then Except.ok s
      else
        let s1 := { s with previous_label := Option.some l }
        match s1.labels.findIdx? (fun x => x == l) with
        | Option.none => Except.error "ValueError"
        | Option.some idx =>
          match Annot.init (x_lo, y_lo, x_hi, y_hi)
              (PyVal.int ((idx : Int) + 1)) (PyVal.str l) with
          | Except.error e => Except.error e
          | Except.ok a =>
            let new_id := s1.objs.length
            let s2 := { s1 with objs := s1.objs ++ [a],
                                annotations := s1.annotations ++ [new_id] }
            let s3 := set_selected_anno s2 (Option.some new_id)
            Except.ok { s3 with unsaved_changes := true }

/-- `Canvas.move_annotation` from `app/canvas.py`: per-axis, move the
grabbed edge (LEFT/TOP before RIGHT/BOTTOM, body drag moves both) only
when the shifted coordinate stays inside the image; after the shifts,
flip the LEFT (resp. TOP) bit of the stored hover type when the box
inverted on that axis, re-sort the coordinates, store the new position
and mark unsaved changes. -/
def move_anno (s : CanvasState) (i : Nat) (delta : Int × Int) : CanvasState :=
  let anno := getObj s i
  let (x_min, y_min, x_max, y_max) := anno.position
  let (delta_x, delta_y) := delta
  let hover_type := anno.hovered
  let right_border := (pixmap_size s.pixmap).1
  let bottom_border := (pixmap_size s.pixmap).2
  let xpair :=
    if hover_type ≠ HoverType.TOP ∧ hover_type ≠ HoverType.BOTTOM then
      let can_move_left := 0 ≤ x_min + delta_x ∧ x_min + delta_x ≤ right_border
      let can_move_right := 0 ≤ x_max + delta_x ∧ x_max + delta_x ≤ right_border
      if Int.land hover_type HoverType.LEFT ≠ 0 ∧ can_move_left then
        (x_min + delta_x, x_max)
      else if Int.land hover_type HoverType.RIGHT ≠ 0 ∧ can_move_right then
        (x_min, x_max + delta_x)
      else if can_move_left ∧ can_move_right then
        (x_min + delta_x, x_max + delta_x)
      else (x_min, x_max)
    else (x_min, x_max)
  let ypair :=
    if hover_type ≠ HoverType.LEFT ∧ hover_type ≠ HoverType.RIGHT then
      let can_move_top := 0 ≤ y_min + delta_y ∧ y_min + delta_y ≤ bottom_border
      let can_move_bottom := 0 ≤ y_max + delta_y ∧ y_max + delta_y ≤ bottom_border
      if Int.land hover_type HoverType.TOP ≠ 0 ∧ can_move_top then
        (y_min + delta_y, y_max)
      else if Int.land hover_type HoverType.BOTTOM ≠ 0 ∧ can_move_bottom then
        (y_min, y_max + delta_y)
      else if can_move_top ∧ can_move_bottom then
        (y_min + delta_y, y_max + delta_y)
      else (y_min, y_max)
    else (y_min, y_max)
  let hovered1 :=
    if xpair.1 > xpair.2 then
      if Int.land hover_type HoverType.LEFT ≠ 0 then anno.hovered + HoverType.LEFT
      else anno.hovered - HoverType.LEFT
    else anno.hovered
  let hovered2 :=
    if ypair.1 > ypair.2 then
      if Int.land hover_type HoverType.TOP ≠ 0 then hovered1 + HoverType.TOP
      else hovered1 - HoverType.TOP
    else hovered1
  let new_position := (min xpair.1 xpair.2, min ypair.1 ypair.2,
                       max xpair.1 xpair.2, max ypair.1 ypair.2)
  { s with objs := s.objs.set i { anno with position := new_position,
                                            hovered := hovered2 },
           unsaved_changes := true }

/-- `Canvas.copy_annotations` from `app/canvas.py`: snapshot the
selected annotations (or, when none are selected, all of them) in
reverse store order into the clipboard as deep copies. -/
def copy_annotations (s : CanvasState) : CanvasState :=
  let all_annotations := s.annotations.reverse
  let sel := all_annotations.filter (fun i => (getObj s i).selected)
  let to_copy := if sel.isEmpty then all_annotations else sel
  { s with clipboard := to_copy.map (getObj s) }

/-- The head of `Canvas.paste_annotations` from `app/canvas.py`:
deep-copy the clipboard, mark the copies hover-free, selected and
visible, deselect every store member, append the copies in reversed
clipboard order and make them the selection. -/
def paste_mid (s : CanvasState) : CanvasState :=
  let pasted := s.clipboard.map (fun a =>
    { a with hovered := HoverType.NONE, selected := true, hidden := false })
  let objs1 := deselectList s.objs s.annotations
  let base := objs1.length
  let new_ids := (List.range pasted.length).map (fun k => base + k)
  { s with objs := objs1 ++ pasted,
           annotations := s.annotations ++ new_ids.reverse,
           selected_annos := new_ids }

/-- The tail of `Canvas.paste_annotations`: force the IDLE annotating
state (running `update`) and mark unsaved changes. -/
def paste_annotations (s : CanvasState) : Except String CanvasState :=
  match set_annotating_state (paste_mid s) AnnotatingState.IDLE with
  | Except.error e => Except.error e
  | Except.ok s2 => Except.ok { s2 with unsaved_changes := true }

/-- `Canvas.delete_annotations` from `app/canvas.py`: drop every
selected annotation from the store (the selection list itself is not
touched), mark unsaved changes and `update`. -/
def delete_annotations (s : CanvasState) : Except String CanvasState :=
  let s1 := { s with
    annotations := s.annotations.filter (fun i => !(getObj s i).selected),
    unsaved_changes := true }
  canvas_update s1

/-- The fields of an annotation that the ordering and flag claims are
about: position, label, selected, hidden (the transient hover flag is
rewritten by every `update`). -/
def proj (a : Annot) : (Int × Int × Int × Int) × PyVal × Bool × Bool :=
  (a.position, a.label_name, a.selected, a.hidden)

/-- The store contents of a state, projected through `proj`, in store
order. -/
def storedProjs (s : CanvasState) :
    List ((Int × Int × Int × Int) × PyVal × Bool × Bool) :=
  s.annotations.map (fun i => proj (getObj s i))

/-- The flag normalisation `paste_annotations` applies to each pasted
copy. -/
def paste_flags (a : Annot) : Annot :=
  { a with hovered := HoverType.NONE, selected := true, hidden := false }

/-- A generic heap-mutation fold: apply `f` in place to the object at
each id in the list.  `deselectList` and `clearHoveredList` are
instances. -/
def mapAtList (f : Annot → Annot) (objs : List Annot) (ids : List Nat) :
    List Annot :=
  ids.foldl (fun os i => os.set i (f (os.getD i default))) objs

/-- A selected annotation used by the concrete delete/paste states. -/
def a_sel : Annot :=
  { position := (100, 100, 200, 200), label_name := PyVal.str "cat",
    keypoints := PyVal.none, hovered := 0, selected := true,
    hidden := false, highlighted := false }

/-- Concrete state for the delete counterexample: one annotation in the
store, and it is selected. -/
def s_del : CanvasState :=
  { objs := [a_sel], labels := ["cat"], clipboard := [],
    quick_create := false, previous_label := Option.none,
    unsaved_changes := false, pixmap := Option.none,
    canvas_w := 400, canvas_h := 300, zoom_level := 1,
    pan_x := 0, pan_y := 0, annotating_state := AnnotatingState.IDLE,
    anno_first_corner := Option.none, annotations := [0],
    selected_annos := [0], hovered_anno := Option.none, cursor := (0, 0) }

/-- Concrete state for the empty-clipboard paste counterexample: one
selected annotation, empty clipboard, clean (no unsaved changes). -/
def s_paste_empty : CanvasState :=
  { objs := [a_sel], labels := ["cat"], clipboard := [],
    quick_create := false, previous_label := Option.none,
    unsaved_changes := false, pixmap := Option.none,
    canvas_w := 400, canvas_h := 300, zoom_level := 1,
    pan_x := 0, pan_y := 0, annotating_state := AnnotatingState.IDLE,
    anno_first_corner := Option.none, annotations := [0],
    selected_annos := [0], hovered_anno := Option.none, cursor := (0, 0) }

/-- Concrete state for the create-commit evaluation: label map loaded
with one label, DRAWING with first corner (100, 100), cursor at
(300, 200), an 800×600 image. -/
def s_create : CanvasState :=
  { objs := [], labels := ["cat"], clipboard := [],
    quick_create := true, previous_label := Option.some "cat",
    unsaved_changes := false, pixmap := Option.some (800, 600),
    canvas_w := 400, canvas_h := 300, zoom_level := 1,
    pan_x := 0, pan_y := 0, annotating_state := AnnotatingState.DRAWING,
    anno_first_corner := Option.some (100, 100), annotations := [],
    selected_annos := [], hovered_anno := Option.none, cursor := (300, 200) }

/-- The annotation of the move/resize scenario: rectangle
(10, 10, 50, 50) with the BOTTOM-RIGHT handle hovered. -/
def a_br : Annot :=
  { position := (10, 10, 50, 50), label_name := PyVal.str "cat",
    keypoints := PyVal.none, hovered := HoverType.BOTTOM_RIGHT,
    selected := false, hidden := false, highlighted := false }

/-- Concrete state for the move/resize scenario on an 800×600 image. -/
def s_move : CanvasState :=
  { objs := [a_br], labels := ["cat"], clipboard := [],
    quick_create := false, previous_label := Option.none,
    unsaved_changes := false, pixmap := Option.some (800, 600),
    canvas_w := 400, canvas_h := 300, zoom_level := 1,
    pan_x := 0, pan_y := 0, annotating_state := AnnotatingState.IDLE,
    anno_first_corner := Option.none, annotations := [0],
    selected_annos := [], hovered_anno := Option.none, cursor := (0, 0) }

/-- First unselected annotation of the copy/paste witness state. -/
def b_cat : Annot :=
  { position := (10, 10, 50, 50), label_name := PyVal.str "cat",
    keypoints := PyVal.none, hovered := 0, selected := false,
    hidden := false, highlighted := false }

/-- Second unselected annotation of the copy/paste witness state. -/
def b_dog : Annot :=
  { position := (300, 300, 400, 400), label_name := PyVal.str "dog",
    keypoints := PyVal.none, hovered := 0, selected := false,
    hidden := false, highlighted := false }

/-- Concrete state for the copy/paste witness: two annotations, none
selected, cursor away from both. -/
def s_cp : CanvasState :=
  { objs := [b_cat, b_dog], labels := ["cat", "dog"], clipboard := [],
    quick_create := false, previous_label := Option.none,
    unsaved_changes := false, pixmap := Option.none,
    canvas_w := 400, canvas_h := 300, zoom_level := 1,
    pan_x := 0, pan_y := 0, annotating_state := AnnotatingState.IDLE,
    anno_first_corner := Option.none, annotations := [0, 1],
    selected_annos := [], hovered_anno := Option.none, cursor := (-50, -50) }

/-- A plain annotation for the hit-testing witnesses. -/
def a_hit : Annot :=
  { position := (0, 0, 100, 100), label_name := PyVal.str "cat",
    keypoints := PyVal.none, hovered := 0, selected := false,
    hidden := false, highlighted := false }

/-- An already-selected annotation for the duplicate-selection witness. -/
def d_first : Annot :=
  { position := (10, 10, 50, 50), label_name := PyVal.str "cat",
    keypoints := PyVal.none, hovered := 0, selected := true,
    hidden := false, highlighted := false }

/-- A distinct store entry with the same position and label as
`d_first`, not selected. -/
def d_second : Annot :=
  { position := (10, 10, 50, 50), label_name := PyVal.str "cat",
    keypoints := PyVal.none, hovered := HoverType.FULL, selected := false,
    hidden := false, highlighted := false }

/-- Concrete state for the duplicate-selection witness: two distinct
store entries with equal position and label, the first selected. -/
def s_dup : CanvasState :=
  { objs := [d_first, d_second], labels := ["cat"], clipboard := [],
    quick_create := false, previous_label := Option.none,
    unsaved_changes := false, pixmap := Option.none,
    canvas_w := 400, canvas_h := 300, zoom_level := 1,
    pan_x := 0, pan_y := 0, annotating_state := AnnotatingState.IDLE,
    anno_first_corner := Option.none, annotations := [0, 1],
    selected_annos := [0], hovered_anno := Option.none, cursor := (0, 0) }

theorem getD_set' {α : Type} (l : List α) (i j : Nat) (a d : α) :
    (l.set i a).getD j d = if i = j ∧ i < l.length then a else l.getD j d := by
  rw [List.getD_eq_getElem?_getD, List.getElem?_set]
  by_cases h1 : i = j
  · subst h1
    by_cases h2 : i < l.length
    · simp [h2]
    · simp only [h2, if_true, if_false, and_false, ite_false, if_neg h2]
      simp only [Option.getD_none]
      rw [List.getD_eq_default]
      omega
  · simp [h1, List.getD_eq_getElem?_getD]

theorem mapAtList_length (f : Annot → Annot) (ids : List Nat) :
    ∀ objs : List Annot, (mapAtList f objs ids).length = objs.length := by
  induction ids with
  | nil => intro objs; rfl
  | cons j tl ih =>
    intro objs
    simp only [mapAtList, List.foldl_cons]
    have := ih (objs.set j (f (objs.getD j default)))
    simp only [mapAtList] at this
    rw [this, List.length_set]

theorem mapAtList_getD (f : Annot → Annot) (hfd : f default = default)
    (hff : ∀ a, f (f a) = f a) (ids : List Nat) :
    ∀ (objs : List Annot) (i : Nat),
      (mapAtList f objs ids).getD i default =
        if i ∈ ids then f (objs.getD i default) else objs.getD i default := by
  induction ids with
  | nil => intro objs i; simp [mapAtList]
  | cons j tl ih =>
    intro objs i
    simp only [mapAtList, List.foldl_cons]
    have step := ih (objs.set j (f (objs.getD j default))) i
    simp only [mapAtList] at step
    rw [step, getD_set']
    by_cases hmem : i ∈ tl
    · simp only [hmem, if_true, List.mem_cons, or_true, if_pos]
      by_cases hji : j = i ∧ j < objs.length
      · rw [if_pos hji, hff, hji.1]
      · rw [if_neg hji]
    · by_cases hji : j = i
      · subst hji
        simp only [hmem, if_false, List.mem_cons, true_or, if_pos, ite_false]
        by_cases hlen : j < objs.length
        · simp [hlen]
        · simp only [hlen, and_false, ite_false, if_neg, and_true]
          rw [List.getD_eq_default _ _ (by omega), hfd]
      · have hij : ¬i = j := fun h => hji h.symm
        have hnc : ¬i ∈ j :: tl := by simp [hmem, hij]
        simp only [hmem, ite_false, hnc, if_false]
        rw [if_neg (fun h => hji h.1)]

theorem deselectList_getD (ids : List Nat) (objs : List Annot) (i : Nat) :
    (deselectList objs ids).getD i default =
      if i ∈ ids then { objs.getD i default with selected := false }
      else objs.getD i default :=
  mapAtList_getD (fun a => { a with selected := false }) rfl (fun _ => rfl) ids objs i

theorem deselectList_length (ids : List Nat) (objs : List Annot) :
    (deselectList objs ids).length = objs.length :=
  mapAtList_length (fun a => { a with selected := false }) ids objs

theorem clearHoveredList_getD (ids : List Nat) (objs : List Annot) (i : Nat) :
    (clearHoveredList objs ids).getD i default =
      if i ∈ ids then { objs.getD i default with hovered := HoverType.NONE }
      else objs.getD i default :=
  mapAtList_getD (fun a => { a with hovered := HoverType.NONE }) rfl (fun _ => rfl) ids objs i

theorem clearHoveredList_length (ids : List Nat) (objs : List Annot) :
    (clearHoveredList objs ids).length = objs.length :=
  mapAtList_length (fun a => { a with hovered := HoverType.NONE }) ids objs

theorem proj_set_hovered (a : Annot) (h : Int) :
    proj { a with hovered := h } = proj a := rfl

theorem proj_paste_flags (a : Annot) :
    proj (paste_flags a) = (a.position, a.label_name, true, false) := rfl

theorem annot_eta_sel (a : Annot) (h : a.selected = false) :
    { a with selected := false } = a := by
  cases a
  simp_all


theorem set_hovered_spec (s : CanvasState) (w : Int)
    (hew : edge_width_of s.canvas_w s.canvas_h s.pixmap s.zoom_level = Except.ok w) :
    ∃ t, set_hovered_anno s = Except.ok t ∧
      t.annotations = s.annotations ∧ t.selected_annos = s.selected_annos ∧
      t.clipboard = s.clipboard ∧ t.annotating_state = s.annotating_state ∧
      t.anno_first_corner = s.anno_first_corner ∧
      t.unsaved_changes = s.unsaved_changes ∧ t.labels = s.labels ∧
      t.previous_label = s.previous_label ∧ t.quick_create = s.quick_create ∧
      t.canvas_w = s.canvas_w ∧ t.canvas_h = s.canvas_h ∧
      t.pixmap = s.pixmap ∧ t.zoom_level = s.zoom_level ∧ t.cursor = s.cursor ∧
      t.objs.length = s.objs.length ∧
      ∀ i, proj (getObj t i) = proj (getObj s i) := by
  unfold set_hovered_anno
  by_cases hst : s.annotating_state ≠ AnnotatingState.IDLE
  · rw [if_pos hst]
    refine ⟨_, rfl, rfl, rfl, rfl, rfl, rfl, rfl, rfl, rfl, rfl, rfl, rfl, rfl, rfl, rfl,
      clearHoveredList_length _ _, fun i => ?_⟩
    show proj ((clearHoveredList s.objs _).getD i default) = _
    rw [clearHoveredList_getD]
    split
    · exact proj_set_hovered _ _
    · rfl
  · rw [if_neg hst, hew]
    dsimp only
    split
    · refine ⟨_, rfl, rfl, rfl, rfl, rfl, rfl, rfl, rfl, rfl, rfl, rfl, rfl, rfl, rfl, rfl,
        clearHoveredList_length _ _, fun i => ?_⟩
      show proj ((clearHoveredList s.objs _).getD i default) = _
      rw [clearHoveredList_getD]
      split
      · exact proj_set_hovered _ _
      · rfl
    · refine ⟨_, rfl, rfl, rfl, rfl, rfl, rfl, rfl, rfl, rfl, rfl, rfl, rfl, rfl, rfl, rfl,
        ?_, fun j => ?_⟩
      · show (List.set _ _ _).length = _
        rw [List.length_set, clearHoveredList_length]
      · show proj ((List.set (clearHoveredList s.objs _) _ _).getD j default) = _
        rw [getD_set']
        split
        · next h =>
          rw [proj_set_hovered]
          show proj ((clearHoveredList s.objs _).getD _ default) = _
          rw [clearHoveredList_getD, ← h.1]
          split
          · exact proj_set_hovered _ _
          · rfl
        · show proj ((clearHoveredList s.objs _).getD j default) = _
          rw [clearHoveredList_getD]
          split
          · exact proj_set_hovered _ _
          · rfl

theorem set_annotating_IDLE_spec (s : CanvasState) (w : Int)
    (hew : edge_width_of s.canvas_w s.canvas_h s.pixmap s.zoom_level = Except.ok w) :
    ∃ t, set_annotating_state s AnnotatingState.IDLE = Except.ok t ∧
      t.annotations = s.annotations ∧ t.selected_annos = s.selected_annos ∧
      t.clipboard = s.clipboard ∧
      t.annotating_state = AnnotatingState.IDLE ∧
      t.anno_first_corner = Option.none ∧
      t.unsaved_changes = s.unsaved_changes ∧ t.labels = s.labels ∧
      t.previous_label = s.previous_label ∧ t.quick_create = s.quick_create ∧
      t.canvas_w = s.canvas_w ∧ t.canvas_h = s.canvas_h ∧
      t.pixmap = s.pixmap ∧ t.zoom_level = s.zoom_level ∧ t.cursor = s.cursor ∧
      t.objs.length = s.objs.length ∧
      ∀ i, proj (getObj t i) = proj (getObj s i) := by
  obtain ⟨t, h1, h2⟩ := set_hovered_spec
    { s with annotating_state := AnnotatingState.IDLE,
             anno_first_corner := Option.none } w hew
  exact ⟨t, h1, h2⟩

theorem edge_width_none (canvas_w canvas_h : Int) :
    edge_width_of canvas_w canvas_h Option.none 1 = Except.ok 8 := by
  show (if (1 : ℚ) = 0 then Except.error "ZeroDivisionError"
        else Except.ok (max (pyRound (8 / (1 : ℚ))) 4)) = Except.ok 8
  rw [if_neg one_ne_zero]
  have h1 : (8 : ℚ) / 1 = 8 := by norm_num
  have h2 : pyRound 8 = 8 := by
    unfold pyRound
    norm_num
  rw [h1, h2]
  rfl

theorem proj_selected_eq {a b : Annot} (h : proj a = proj b) :
    a.selected = b.selected :=
  congrArg (fun p => p.2.2.1) h

/-- C2 (counterexample): the claim fails on `Canvas.delete_annotations`.
In the concrete state `s_del` the single store annotation (id 0) is
selected; after `delete_annotations` the store is empty but the
selection list still holds id 0, so a selection member is not a store
member. -/
theorem delete_keeps_stale_selection_cex :
    s_del.annotations = [0] ∧ s_del.selected_annos = [0] ∧
    (delete_annotations s_del).toOption.map
      (fun t => (t.annotations, t.selected_annos)) = Option.some ([], [0]) := by
  refine ⟨rfl, rfl, ?_⟩
  obtain ⟨t, h1, ha, hs, -, -, -, -, -, -, -, -, -, -, -, -, -⟩ :=
    set_hovered_spec
      { s_del with annotations := [], unsaved_changes := true } 8
      (edge_width_none 400 300)
  have hp : delete_annotations s_del = Except.ok t := h1
  rw [hp]
  show Option.some (t.annotations, t.selected_annos) = Option.some ([], [0])
  rw [ha, hs]
  rfl

/-- C2 (amended): `Canvas.delete_annotations` removes every selected
annotation from the store but leaves the selection list untouched, so
the subset invariant is broken by delete (it is not re-established);
the selection-mutating operations themselves only add store members. -/
theorem delete_filters_store_not_selection (s : CanvasState) (w : Int)
    (hew : edge_width_of s.canvas_w s.canvas_h s.pixmap s.zoom_level = Except.ok w) :
    ∃ t, delete_annotations s = Except.ok t ∧
      t.selected_annos = s.selected_annos ∧
      t.annotations = s.annotations.filter (fun i => !(getObj s i).selected) ∧
      t.unsaved_changes = true := by
  obtain ⟨t, h1, ha, hs, -, -, -, hun, -, -, -, -, -, -, -, -, -, -⟩ :=
    set_hovered_spec
      { s with annotations := s.annotations.filter (fun i => !(getObj s i).selected),
               unsaved_changes := true } w hew
  exact ⟨t, h1, hs, ha, hun⟩

/-- C2 (witness): the amended delete behaviour evaluated on `s_del`. -/
theorem delete_filters_store_not_selection_witness :
    ∃ t, delete_annotations s_del = Except.ok t ∧
      t.selected_annos = s_del.selected_annos ∧
      t.annotations = s_del.annotations.filter (fun i => !(getObj s_del i).selected) ∧
      t.unsaved_changes = true :=
  delete_filters_store_not_selection s_del 8 (edge_width_none 400 300)

theorem paste_spec (s : CanvasState) (w : Int)
    (hew : edge_width_of s.canvas_w s.canvas_h s.pixmap s.zoom_level = Except.ok w) :
    ∃ t, paste_annotations s = Except.ok t ∧
      t.annotations = (paste_mid s).annotations ∧
      t.selected_annos = (paste_mid s).selected_annos ∧
      t.annotating_state = AnnotatingState.IDLE ∧
      t.anno_first_corner = Option.none ∧
      t.unsaved_changes = true ∧
      t.objs.length = (paste_mid s).objs.length ∧
      ∀ i, proj (getObj t i) = proj (getObj (paste_mid s) i) := by
  obtain ⟨u, h1, ha, hs, -, hst, hcor, -, -, -, -, -, -, -, -, -, hlen, hproj⟩ :=
    set_annotating_IDLE_spec (paste_mid s) w hew
  refine ⟨{ u with unsaved_changes := true }, ?_, ha, hs, hst, hcor, rfl, hlen, hproj⟩
  unfold paste_annotations
  rw [h1]

/-- C3 (counterexample): the claim fails on
`Canvas.paste_annotations`.  In the concrete state `s_paste_empty` the
clipboard is empty, annotation 0 is selected and there are no unsaved
changes; after `paste_annotations` the selection list is empty, the
dirty flag is set and the annotation's selected flag has been
cleared — not a no-op. -/
theorem paste_empty_clipboard_not_noop_cex :
    s_paste_empty.clipboard = [] ∧ s_paste_empty.selected_annos = [0] ∧
    s_paste_empty.unsaved_changes = false ∧
    (getObj s_paste_empty 0).selected = true ∧
    (paste_annotations s_paste_empty).toOption.map
      (fun t => (t.selected_annos, t.unsaved_changes, (getObj t 0).selected)) =
      Option.some ([], true, false) := by
  refine ⟨rfl, rfl, rfl, rfl, ?_⟩
  obtain ⟨t, h1, ha, hs, hst, hcor, hun, hlen, hproj⟩ :=
    paste_spec s_paste_empty 8 (edge_width_none 400 300)
  rw [h1]
  show Option.some (t.selected_annos, t.unsaved_changes, (getObj t 0).selected) =
    Option.some ([], true, false)
  rw [hs, hun, proj_selected_eq (hproj 0)]
  rfl

/-- C3 (amended): paste on an empty clipboard adds nothing to the
store, but it is not a no-op: it clears every store member's selected
flag, empties the selection list, forces the IDLE annotating state
(dropping any pending first corner) and sets the unsaved-changes
flag. -/
theorem paste_empty_clipboard_effects (s : CanvasState) (w : Int)
    (hcb : s.clipboard = [])
    (hew : edge_width_of s.canvas_w s.canvas_h s.pixmap s.zoom_level = Except.ok w) :
    ∃ t, paste_annotations s = Except.ok t ∧
      t.annotations = s.annotations ∧ t.selected_annos = [] ∧
      t.annotating_state = AnnotatingState.IDLE ∧
      t.anno_first_corner = Option.none ∧ t.unsaved_changes = true ∧
      ∀ i ∈ s.annotations, (getObj t i).selected = false := by
  obtain ⟨t, h1, ha, hs, hst, hcor, hun, hlen, hproj⟩ := paste_spec s w hew
  have hmida : (paste_mid s).annotations = s.annotations := by
    unfold paste_mid
    rw [hcb]
    simp
  have hmids : (paste_mid s).selected_annos = [] := by
    unfold paste_mid
    rw [hcb]
    simp
  have hobjs : (paste_mid s).objs = deselectList s.objs s.annotations := by
    unfold paste_mid
    rw [hcb]
    simp
  refine ⟨t, h1, by rw [ha, hmida], by rw [hs, hmids], hst, hcor, hun, ?_⟩
  intro i hi
  have h3 : (getObj (paste_mid s) i).selected = false := by
    show ((paste_mid s).objs.getD i default).selected = false
    rw [hobjs, deselectList_getD, if_pos hi]
  rw [proj_selected_eq (hproj i), h3]

/-- C3 (witness): the amended paste-on-empty-clipboard behaviour
evaluated on `s_paste_empty`. -/
theorem paste_empty_clipboard_effects_witness :
    ∃ t, paste_annotations s_paste_empty = Except.ok t ∧
      t.annotations = s_paste_empty.annotations ∧ t.selected_annos = [] ∧
      t.annotating_state = AnnotatingState.IDLE ∧
      t.anno_first_corner = Option.none ∧ t.unsaved_changes = true ∧
      ∀ i ∈ s_paste_empty.annotations, (getObj t i).selected = false :=
  paste_empty_clipboard_effects s_paste_empty 8 rfl (edge_width_none 400 300)

/-- C4 (counterexample): the claim fails on `Canvas.move_annotation`.
For rectangle (10, 10, 50, 50) with the BOTTOM-RIGHT handle hovered and
delta (-60, -60) on an 800×600 image, both in-bounds checks fail
(x_max - 60 = -10 < 0 and y_max - 60 = -10 < 0), so no edge moves: the
result is (10, 10, 50, 50), not (10, 10, 10, 10), and the stored hover
region stays BOTTOM-RIGHT instead of flipping to TOP-LEFT. -/
theorem move_bottom_right_oob_cex :
    (getObj s_move 0).position = (10, 10, 50, 50) ∧
    (getObj s_move 0).hovered = HoverType.BOTTOM_RIGHT ∧
    (getObj (move_anno s_move 0 (-60, -60)) 0).position = (10, 10, 50, 50) ∧
    (getObj (move_anno s_move 0 (-60, -60)) 0).position ≠ (10, 10, 10, 10) ∧
    (getObj (move_anno s_move 0 (-60, -60)) 0).hovered = HoverType.BOTTOM_RIGHT ∧
    (getObj (move_anno s_move 0 (-60, -60)) 0).hovered ≠ HoverType.TOP_LEFT := by
  decide

/-- C4 (amended): dragging the BOTTOM-RIGHT handle of (10, 10, 50, 50)
by (-60, -60) on an 800×600 image leaves the rectangle and the stored
hover region unchanged — the failed in-bounds checks stop each edge for
this event — so a subsequent drag of (+5, +5) still resizes from the
bottom-right corner, producing (10, 10, 55, 55). -/
theorem move_bottom_right_oob_stops :
    (getObj (move_anno s_move 0 (-60, -60)) 0).position = (10, 10, 50, 50) ∧
    (getObj (move_anno s_move 0 (-60, -60)) 0).hovered = HoverType.BOTTOM_RIGHT ∧
    (getObj (move_anno (move_anno s_move 0 (-60, -60)) 0 (5, 5)) 0).position =
      (10, 10, 55, 55) ∧
    (getObj (move_anno (move_anno s_move 0 (-60, -60)) 0 (5, 5)) 0).hovered =
      HoverType.BOTTOM_RIGHT := by
  decide

/-- C1: evaluation of the create-commit at a concrete input.  In
`s_create` the label map is `["cat"]`, the first corner is (100, 100)
and the cursor is at (300, 200) on an 800×600 image, so the clamped,
corner-normalised rectangle is (100, 100, 300, 200) and the resolved
label is "cat".  `Canvas.create_annotation` then calls
`Annotation(position, category_id, label_name)`, but the constructor in
`app/objects.py` is `(position, label_name, keypoints)`: the numeric
category id lands in the label slot and the label string in the
keypoints slot, so the constructor raises `AttributeError` and no
annotation with label "cat" is ever appended.  The second conjunct
shows the constructor itself is sound when the label is passed in the
label slot: the claimed behaviour fails only because of the call-site
argument mismatch. -/
theorem create_commit_label_bug :
    create_anno s_create (Option.some "cat") Option.none =
      Except.error "AttributeError" ∧
    (Annot.init (100, 100, 300, 200) (PyVal.str "cat")).map
      (fun a => a.label_name) = Except.ok (PyVal.str "cat") :=
  ⟨rfl, rfl⟩

/-- C6: for every rectangle and every nonnegative edge width (edge
widths in this program are `max(4, round(8 / scale))`, hence at least
4), a point strictly inside the rectangle at distance greater than
`edge_width` from each of the four edges classifies as FULL (body
grab). -/
theorem interior_point_classifies_full (a : Annot) (x y edge_width : Int)
    (hew : 0 ≤ edge_width)
    (hl : a.left + edge_width < x) (hr : x + edge_width < a.right)
    (ht : a.top + edge_width < y) (hb : y + edge_width < a.bottom) :
    a.get_hovered (x, y) edge_width = HoverType.FULL := by
  unfold Annot.get_hovered
  have hP : a.left - edge_width ≤ x ∧ x ≤ a.right + edge_width ∧
      a.top - edge_width ≤ y ∧ y ≤ a.bottom + edge_width := by
    refine ⟨by omega, by omega, by omega, by omega⟩
  rw [if_neg (not_not_intro hP)]
  have e1 : decide (|y - a.top| ≤ edge_width) = false :=
    decide_eq_false (by rw [abs_le]; omega)
  have e2 : decide (|x - a.left| ≤ edge_width) = false :=
    decide_eq_false (by rw [abs_le]; omega)
  have e3 : decide (|x - a.right| ≤ edge_width) = false :=
    decide_eq_false (by rw [abs_le]; omega)
  have e4 : decide (|y - a.bottom| ≤ edge_width) = false :=
    decide_eq_false (by rw [abs_le]; omega)
  simp only [e1, e2, e3, e4]
  rfl

/-- C6 (witness): the interior point (50, 50) of the rectangle
(0, 0, 100, 100) with edge width 4 classifies as FULL. -/
theorem interior_point_classifies_full_witness :
    Annot.get_hovered a_hit (50, 50) 4 = HoverType.FULL :=
  interior_point_classifies_full a_hit 50 50 4 (by decide) (by decide)
    (by decide) (by decide) (by decide)

/-- C7: with all four dimensions positive, the scale computed by
comparing aspect ratios and picking one per-axis ratio equals
`min(canvas_w / image_w, canvas_h / image_h)` multiplied by the zoom
level. -/
theorem scale_aspect_compare_eq_min_fit (canvas_w canvas_h image_w image_h : Int)
    (zoom_level : ℚ) (hcw : 0 < canvas_w) (hch : 0 < canvas_h)
    (hiw : 0 < image_w) (hih : 0 < image_h) :
    get_scale canvas_w canvas_h (Option.some (image_w, image_h)) zoom_level =
      Except.ok (min ((canvas_w : ℚ) / (image_w : ℚ))
        ((canvas_h : ℚ) / (image_h : ℚ)) * zoom_level) := by
  unfold get_scale
  dsimp only
  rw [if_neg (by omega : ¬canvas_h = 0), if_neg (by omega : ¬image_h = 0)]
  have hch' : (0 : ℚ) < (canvas_h : ℚ) := by exact_mod_cast hch
  have hih' : (0 : ℚ) < (image_h : ℚ) := by exact_mod_cast hih
  have hiw' : (0 : ℚ) < (image_w : ℚ) := by exact_mod_cast hiw
  by_cases hlt : (canvas_w : ℚ) / (canvas_h : ℚ) < (image_w : ℚ) / (image_h : ℚ)
  · rw [if_pos hlt, if_neg (by omega : ¬image_w = 0)]
    have h1 : (canvas_w : ℚ) * (image_h : ℚ) < (image_w : ℚ) * (canvas_h : ℚ) :=
      (div_lt_div_iff₀ hch' hih').mp hlt
    have h2 : (canvas_w : ℚ) / (image_w : ℚ) ≤ (canvas_h : ℚ) / (image_h : ℚ) := by
      rw [div_le_div_iff₀ hiw' hih']
      linarith [mul_comm (image_w : ℚ) (canvas_h : ℚ)]
    rw [min_eq_left h2]
  · rw [if_neg hlt]
    push_neg at hlt
    have h1 : (image_w : ℚ) * (canvas_h : ℚ) ≤ (canvas_w : ℚ) * (image_h : ℚ) :=
      (div_le_div_iff₀ hih' hch').mp hlt
    have h2 : (canvas_h : ℚ) / (image_h : ℚ) ≤ (canvas_w : ℚ) / (image_w : ℚ) := by
      rw [div_le_div_iff₀ hih' hiw']
      linarith [mul_comm (image_w : ℚ) (canvas_h : ℚ)]
    rw [min_eq_right h2]

/-- C7 (witness): an 800×600 image in a 400×300 canvas at zoom 1. -/
theorem scale_aspect_compare_eq_min_fit_witness :
    get_scale 400 300 (Option.some (800, 600)) 1 =
      Except.ok (min (((400 : Int) : ℚ) / ((800 : Int) : ℚ))
        (((300 : Int) : ℚ) / ((600 : Int) : ℚ)) * 1) :=
  scale_aspect_compare_eq_min_fit 400 300 800 600 1 (by decide) (by decide)
    (by decide) (by decide)

/-- C8 (counterexample): the claim fails on `Canvas.get_scale`.  With
an 800×600 image loaded and a 400×0 canvas, `canvas.width() /
canvas.height()` divides by zero: the computation raises instead of
short-circuiting to the safe default 1.0. -/
theorem scale_zero_canvas_raises_cex :
    get_scale 400 0 (Option.some (800, 600)) 1 =
      Except.error "ZeroDivisionError" := rfl

/-- C8 (amended): only the no-image case short-circuits to the safe
default scale 1.0; with an image loaded the canvas size is not guarded,
and a zero canvas height makes the scale computation divide by zero. -/
theorem scale_null_image_default_and_zero_canvas_raises
    (canvas_w canvas_h : Int) (zoom_level : ℚ) :
    get_scale canvas_w canvas_h Option.none zoom_level = Except.ok 1 ∧
    ∀ image_w image_h : Int, canvas_h = 0 →
      get_scale canvas_w canvas_h (Option.some (image_w, image_h)) zoom_level =
        Except.error "ZeroDivisionError" := by
  constructor
  · rfl
  · intro image_w image_h h
    unfold get_scale
    dsimp only
    rw [if_pos h]

/-- C8 (witness): the no-image default at a 400×300 canvas, and the
zero-height-canvas division by zero with an 800×600 image. -/
theorem scale_null_image_default_and_zero_canvas_raises_witness :
    get_scale 400 300 Option.none 1 = Except.ok 1 ∧
    get_scale 400 0 (Option.some (800, 600)) 1 =
      Except.error "ZeroDivisionError" :=
  ⟨(scale_null_image_default_and_zero_canvas_raises 400 300 1).1,
   (scale_null_image_default_and_zero_canvas_raises 400 0 1).2 800 600 rfl⟩

theorem trichotomy_core : ∀ t l r b : Bool,
    (hover_bits t l r b = 0 ∧ t = false ∧ l = false ∧ r = false ∧ b = false) ∨
    ((t || l || r || b) = true ∧ hover_bits t l r b ≠ 0 ∧
     hover_bits t l r b ≠ HoverType.FULL) := by
  decide

/-- C9: the hover classification returns exactly one of NONE, FULL, or
a bitwise OR of one or more edge bits; FULL is returned only when no
edge test matched, and is never combined with an edge bit. -/
theorem hover_classification_trichotomy (a : Annot) (mp : Int × Int) (ew : Int) :
    (a.get_hovered mp ew = HoverType.NONE ∨
     a.get_hovered mp ew = HoverType.FULL ∨
     (∃ t l r b : Bool, (t || l || r || b) = true ∧
        a.get_hovered mp ew = hover_bits t l r b ∧
        a.get_hovered mp ew ≠ HoverType.NONE ∧
        a.get_hovered mp ew ≠ HoverType.FULL)) ∧
    (a.get_hovered mp ew = HoverType.FULL →
      ¬(|mp.2 - a.top| ≤ ew) ∧ ¬(|mp.1 - a.left| ≤ ew) ∧
      ¬(|mp.1 - a.right| ≤ ew) ∧ ¬(|mp.2 - a.bottom| ≤ ew)) := by
  unfold Annot.get_hovered
  by_cases hpre : a.left - ew ≤ mp.1 ∧ mp.1 ≤ a.right + ew ∧
      a.top - ew ≤ mp.2 ∧ mp.2 ≤ a.bottom + ew
  · rw [if_neg (not_not_intro hpre)]
    dsimp only
    generalize e1 : decide (|mp.2 - a.top| ≤ ew) = t
    generalize e2 : decide (|mp.1 - a.left| ≤ ew) = l
    generalize e3 : decide (|mp.1 - a.right| ≤ ew) = r
    generalize e4 : decide (|mp.2 - a.bottom| ≤ ew) = b
    rcases trichotomy_core t l r b with ⟨hz, ht, hl, hr, hb⟩ | ⟨hor, hne0, hnef⟩
    · rw [if_pos hz]
      refine ⟨Or.inr (Or.inl rfl), fun _ => ?_⟩
      exact ⟨of_decide_eq_false (ht ▸ e1), of_decide_eq_false (hl ▸ e2),
             of_decide_eq_false (hr ▸ e3), of_decide_eq_false (hb ▸ e4)⟩
    · rw [if_neg hne0]
      refine ⟨Or.inr (Or.inr ⟨t, l, r, b, hor, rfl, hne0, hnef⟩),
        fun hfull => absurd hfull hnef⟩
  · rw [if_pos hpre]
    refine ⟨Or.inl rfl, fun hfull => absurd hfull (by decide)⟩

/-- C9 (witness): the trichotomy instantiated at the rectangle
(0, 0, 100, 100), point (50, 50) and edge width 4. -/
theorem hover_classification_trichotomy_witness :
    Annot.get_hovered a_hit (50, 50) 4 = HoverType.NONE ∨
    Annot.get_hovered a_hit (50, 50) 4 = HoverType.FULL ∨
    (∃ t l r b : Bool, (t || l || r || b) = true ∧
       Annot.get_hovered a_hit (50, 50) 4 = hover_bits t l r b ∧
       Annot.get_hovered a_hit (50, 50) 4 ≠ HoverType.NONE ∧
       Annot.get_hovered a_hit (50, 50) 4 ≠ HoverType.FULL) :=
  (hover_classification_trichotomy a_hit (50, 50) 4).1

/-- C10: because Python `in` compares with `Annotation.__eq__`
(position and label), adding an annotation is a no-op whenever some
already-selected annotation has the same position and label: the state
is returned unchanged, so the id is not appended to the selection list
and the object's selected flag keeps its value (false in the claimed
scenario), even when the two are distinct store entries. -/
theorem add_selected_dedup_by_value (s : CanvasState) (i j : Nat)
    (hj : j ∈ s.selected_annos)
    (heq : Annot.py_eq (getObj s j) (getObj s i) = true) :
    add_selected_anno s (Option.some i) = s := by
  unfold add_selected_anno
  dsimp only
  rw [if_pos (List.any_eq_true.mpr ⟨j, hj, heq⟩)]

/-- C10 (witness): in `s_dup` the store entries 0 and 1 are distinct
objects with equal position and label; entry 0 is selected, and adding
entry 1 leaves the state unchanged (so entry 1's selected flag stays
false). -/
theorem add_selected_dedup_by_value_witness :
    add_selected_anno s_dup (Option.some 1) = s_dup ∧
    (getObj s_dup 1).selected = false ∧ (0 : Nat) ≠ (1 : Nat) :=
  ⟨add_selected_dedup_by_value s_dup 1 0 (by decide) (by decide),
   rfl, by decide⟩

theorem getD_append_offset {α : Type} (l l' : List α) (k : Nat) (d : α) :
    (l ++ l').getD (l.length + k) d = l'.getD k d := by
  rw [List.getD_append_right _ _ _ _ (Nat.le_add_right _ _)]
  congr 1
  omega

theorem map_range_getD {α β : Type} (f : α → β) (d : α) :
    ∀ l : List α, (List.range l.length).map (fun k => f (l.getD k d)) = l.map f := by
  intro l
  induction l with
  | nil => rfl
  | cons a tl ih =>
    show (List.range (tl.length + 1)).map _ = _
    rw [List.range_succ_eq_map, List.map_cons, List.map_map]
    have hcomp : ((fun k => f ((a :: tl).getD k d)) ∘ Nat.succ) =
        fun k => f (tl.getD k d) := by
      funext k
      simp [Function.comp, List.getD_cons_succ]
    rw [hcomp, ih]
    rfl

theorem paste_content (s : CanvasState) (w : Int)
    (hwf : ∀ i ∈ s.annotations, i < s.objs.length)
    (hsel : ∀ i ∈ s.annotations, (getObj s i).selected = false)
    (hew : edge_width_of s.canvas_w s.canvas_h s.pixmap s.zoom_level = Except.ok w) :
    ∃ t, paste_annotations s = Except.ok t ∧
      t.annotations.length = s.annotations.length + s.clipboard.length ∧
      storedProjs t = storedProjs s ++
        s.clipboard.reverse.map (fun a => proj (paste_flags a)) := by
  obtain ⟨t, h1, ha, -, -, -, -, -, hproj⟩ := paste_spec s w hew
  have haP : (paste_mid s).annotations = s.annotations ++
      (((List.range (s.clipboard.map paste_flags).length).map
        (fun k => (deselectList s.objs s.annotations).length + k)).reverse) := rfl
  have hoP : (paste_mid s).objs =
      deselectList s.objs s.annotations ++ s.clipboard.map paste_flags := rfl
  refine ⟨t, h1, ?_, ?_⟩
  · rw [ha, haP]
    simp [List.length_append, List.length_reverse, List.length_map, List.length_range]
  · have hmap : ∀ l : List Nat,
        l.map (fun i => proj (getObj t i)) =
          l.map (fun i => proj (getObj (paste_mid s) i)) :=
      fun l => List.map_congr_left (fun i _ => hproj i)
    calc storedProjs t
        = (paste_mid s).annotations.map (fun i => proj (getObj t i)) := by
          unfold storedProjs
          rw [ha]
      _ = (paste_mid s).annotations.map (fun i => proj (getObj (paste_mid s) i)) :=
          hmap _
      _ = s.annotations.map (fun i => proj (getObj (paste_mid s) i)) ++
          (((List.range (s.clipboard.map paste_flags).length).map
            (fun k => (deselectList s.objs s.annotations).length + k)).reverse).map
            (fun i => proj (getObj (paste_mid s) i)) := by
          rw [haP, List.map_append]
      _ = storedProjs s ++
          s.clipboard.reverse.map (fun a => proj (paste_flags a)) := by
          congr 1
          · refine List.map_congr_left (fun i hi => ?_)
            show proj ((paste_mid s).objs.getD i default) =
              proj (s.objs.getD i default)
            rw [hoP,
              List.getD_append _ _ _ _ (by rw [deselectList_length]; exact hwf i hi),
              deselectList_getD, if_pos hi]
            exact congrArg proj (annot_eta_sel _ (hsel i hi))
          · rw [List.map_reverse, List.map_map]
            have hpt : ∀ k ∈ List.range (s.clipboard.map paste_flags).length,
                ((fun i => proj (getObj (paste_mid s) i)) ∘
                  (fun k => (deselectList s.objs s.annotations).length + k)) k =
                  proj ((s.clipboard.map paste_flags).getD k default) := by
              intro k _
              show proj ((paste_mid s).objs.getD
                ((deselectList s.objs s.annotations).length + k) default) = _
              rw [hoP, getD_append_offset]
            rw [List.map_congr_left hpt, map_range_getD, List.map_map,
              List.map_reverse]
            rfl

/-- C5: on a store of N annotations with none selected, copy followed
by paste yields 2N annotations; the original N entries keep their
relative order and precede the N pasted copies, the copies preserve the
originals' relative order (same positions and labels, in store order),
and every pasted copy is selected and not hidden (the projection
records position, label, selected, hidden for each store entry in
order). -/
theorem copy_paste_doubles_store (s : CanvasState) (w : Int)
    (hwf : ∀ i ∈ s.annotations, i < s.objs.length)
    (hsel : ∀ i ∈ s.annotations, (getObj s i).selected = false)
    (hew : edge_width_of s.canvas_w s.canvas_h s.pixmap s.zoom_level = Except.ok w) :
    ∃ t, paste_annotations (copy_annotations s) = Except.ok t ∧
      t.annotations.length = 2 * s.annotations.length ∧
      storedProjs t = storedProjs s ++
        (storedProjs s).map (fun p => (p.1, p.2.1, true, false)) := by
  have hcb : (copy_annotations s).clipboard =
      (s.annotations.map (getObj s)).reverse := by
    unfold copy_annotations
    dsimp only
    have hfil : (s.annotations.reverse).filter (fun i => (getObj s i).selected) = [] :=
      List.filter_eq_nil_iff.mpr (fun i hi => by
        rw [hsel i (List.mem_reverse.mp hi)]
        exact Bool.false_ne_true)
    rw [hfil]
    simp [List.map_reverse]
  obtain ⟨t, h1, hlen, hstored⟩ := paste_content (copy_annotations s) w hwf hsel hew
  refine ⟨t, h1, ?_, ?_⟩
  · have h2 : (copy_annotations s).clipboard.length = s.annotations.length := by
      rw [hcb]
      simp
    calc t.annotations.length
        = (copy_annotations s).annotations.length +
          (copy_annotations s).clipboard.length := hlen
      _ = s.annotations.length + s.annotations.length := by
            rw [h2]
            rfl
      _ = 2 * s.annotations.length := by omega
  · have hsp : storedProjs (copy_annotations s) = storedProjs s := rfl
    have hrev : (copy_annotations s).clipboard.reverse =
        s.annotations.map (getObj s) := by
      rw [hcb, List.reverse_reverse]
    rw [hstored, hsp, hrev]
    congr 1
    rw [List.map_map]
    unfold storedProjs
    rw [List.map_map]
    exact List.map_congr_left (fun i _ => rfl)

/-- C5 (witness): copy then paste on the two-annotation store `s_cp`
with none selected. -/
theorem copy_paste_doubles_store_witness :
    ∃ t, paste_annotations (copy_annotations s_cp) = Except.ok t ∧
      t.annotations.length = 2 * s_cp.annotations.length ∧
      storedProjs t = storedProjs s_cp ++
        (storedProjs s_cp).map (fun p => (p.1, p.2.1, true, false)) :=
  copy_paste_doubles_store s_cp 8 (by decide) (by decide)
    (edge_width_none 400 300)
